import Mathlib

/-!
Verification of the FMT tutor-recommendation core (`backend/core/recommender.py`)
against its specification.

The recommender's ranking / explanation pipeline is shallowly embedded here:

* Python strings are modelled as `List Char` (`PyStr`), with the Python string
  operations (`lower`, `strip`, `join`, `title`) defined character-by-character
  (ASCII case mapping; Python's Unicode case folding agrees with it on ASCII).
* Numeric values (similarity scores, ratings, rates) are modelled as `ℚ`.
  Python's `round(x, n)` applies banker's rounding; it is embedded as exact
  round-half-to-even on `ℚ` (`rhe`).
* The sklearn TF-IDF vectorizer and `cosine_similarity` call (lines 517-524 of
  the source) are modelled as an opaque-but-deterministic function
  `simOf : PyStr → List ℚ` carried in the fitted state, mapping the cleaned
  query to the per-tutor cosine scores; the per-tutor term-overlap enumeration
  (lines 257-289) is likewise modelled as `matchingOf : PyStr → ℕ → List MTerm`.
  The claims under verification concern the pipeline downstream of these
  calls (sorting, filtering, truncation, rounding, explanation synthesis),
  which is embedded exactly.
-/

namespace FMT

/-- Python strings, modelled as lists of characters. -/
abbrev PyStr := List Char

/-- The whitespace characters removed by Python's `str.strip()`. -/
def isPySpace (c : Char) : Bool :=
  c = ' ' || c = '\t' || c = '\n' || c = '\r' || c = '\x0b' || c = '\x0c'

/-- Remove leading whitespace (the left half of `str.strip()`). -/
def trimL (s : PyStr) : PyStr := s.dropWhile isPySpace

/-- Remove trailing whitespace (the right half of `str.strip()`). -/
def trimR (s : PyStr) : PyStr := (s.reverse.dropWhile isPySpace).reverse

/-- Python `str.strip()`: remove leading and trailing whitespace. -/
def pyStrip (s : PyStr) : PyStr := trimR (trimL s)

/-- ASCII upper-case letter test. -/
def isAsciiUpper (c : Char) : Bool := 65 ≤ c.toNat && c.toNat ≤ 90

/-- ASCII lower-case letter test. -/
def isAsciiLower (c : Char) : Bool := 97 ≤ c.toNat && c.toNat ≤ 122

/-- ASCII alphabetic test (what `str.title()` treats as cased, restricted to ASCII). -/
def isAsciiAlpha (c : Char) : Bool := isAsciiUpper c || isAsciiLower c

/-- Lower-case one character (ASCII range of Python's `str.lower()`). -/
def pyLowerChar (c : Char) : Char :=
  if isAsciiUpper c then Char.ofNat (c.toNat + 32) else c

/-- Upper-case one character (ASCII range of Python's `str.upper()`). -/
def pyUpperChar (c : Char) : Char :=
  if isAsciiLower c then Char.ofNat (c.toNat - 32) else c

/-- Python `str.lower()`. -/
def pyLower (s : PyStr) : PyStr := s.map pyLowerChar

/-- Python `sep.join(parts)`. -/
def pyJoin (sep : PyStr) : List PyStr → PyStr
  | [] => []
  | [p] => p
  | p :: ps => p ++ sep ++ pyJoin sep ps

/-- Helper for `pyTitle`: the flag records whether the previous character was
alphabetic. -/
def pyTitleAux : Bool → PyStr → PyStr
  | _, [] => []
  | prevAlpha, c :: cs =>
    (if isAsciiAlpha c then
        (if prevAlpha then pyLowerChar c else pyUpperChar c)
      else c) :: pyTitleAux (isAsciiAlpha c) cs

/-- Python `str.title()`: upper-case each letter that follows a non-letter,
lower-case the rest. -/
def pyTitle (s : PyStr) : PyStr := pyTitleAux false s

/-! ### Rounding

Python's `round(x, n)` and `"{:.nf}".format` round half to even. -/

/-- Round half to even, to an integer (Python's rounding rule). -/
def rhe (q : ℚ) : ℤ :=
  let n := ⌊q⌋
  let f := q - n
  if f < 1/2 then n
  else if 1/2 < f then n + 1
  else if n % 2 = 0 then n else n + 1

/-- Python `round(x, 4)`. -/
def round4 (q : ℚ) : ℚ := (rhe (q * 10000) : ℚ) / 10000

/-- Python `round(x, 1)`. -/
def round1 (q : ℚ) : ℚ := (rhe (q * 10) : ℚ) / 10

/-- Decimal digits of a natural number. -/
def natChars (n : ℕ) : PyStr := Nat.toDigits 10 n

/-- Decimal rendering of an integer. -/
def intChars (i : ℤ) : PyStr :=
  if i < 0 then '-' :: natChars i.natAbs else natChars i.natAbs

/-- Python `"{:.1f}".format(q)` (sign handled separately from the digits). -/
def fmt1 (q : ℚ) : PyStr :=
  let d := rhe (q * 10)
  let body := natChars (d.natAbs / 10) ++ ('.' :: natChars (d.natAbs % 10))
  if d < 0 then '-' :: body else body

/-- Python `"{:.0f}".format(q)`. -/
def fmt0 (q : ℚ) : PyStr := intChars (rhe q)

/-! ### Data model

A row of `tutors_df` as fetched by `fetch_tutors_from_database` (lines
106-141): `tutors` joined with `profiles`.  In the schema
(`core/models.py`), `experience_years`, `hourly_rate`, `qualifications` and
`is_online` are NOT NULL while `bio_text`, `teaching_style` and
`average_rating` are nullable; the recommender nevertheless defends against
missing values in every field, so nullable fields are `Option` and
`qualifications` keeps the list / string / null case split the code tests
with `isinstance`. -/

/-- The `qualifications` cell: a JSON list of subject strings in the schema,
with the code defending against a plain string or a null. -/
inductive Qual where
  | list (xs : List PyStr)
  | str (s : PyStr)
  | null
deriving DecidableEq

/-- One row of the tutors DataFrame. -/
structure TutorRow where
  id : PyStr
  first_name : PyStr
  last_name : PyStr
  full_name : PyStr
  bio_text : Option PyStr
  qualifications : Qual
  teaching_style : Option PyStr
  hourly_rate : Option ℚ
  average_rating : Option ℚ
  experience_years : ℤ
  is_online : Bool
deriving DecidableEq

/-! ### `create_text_soup` (lines 151-198) -/

/-- The fallback document returned when all structured text is empty. -/
def fallbackSoup : PyStr := "tutor educator teacher".toList

/-- The `text_parts` list assembled in `create_text_soup` (lines 167-190):
qualifications joined and doubled when a non-empty list (or doubled when a
non-empty string), then `bio_text` when a non-empty string, then
`teaching_style` when a non-empty string.  Python truthiness makes an empty
list / empty string contribute nothing. -/
def textParts (row : TutorRow) : List PyStr :=
  (match row.qualifications with
    | .list xs => if xs = [] then [] else
        [pyJoin [' '] xs, pyJoin [' '] xs]
    | .str s => if s = [] then [] else [s, s]
    | .null => [])
  ++ (match row.bio_text with
    | some b => if b = [] then [] else [b]
    | none => [])
  ++ (match row.teaching_style with
    | some t => if t = [] then [] else [t]
    | none => [])

/-- `create_text_soup` (lines 151-198): join the parts with spaces,
lower-case, strip, and fall back to `"tutor educator teacher"` when the
result is empty. -/
def create_text_soup (row : TutorRow) : PyStr :=
  let combined := pyStrip (pyLower (pyJoin [' '] (textParts row)))
  if combined = [] then fallbackSoup else combined

/-! ### Matching terms and the explanation builder (lines 227-468) -/

/-- One entry of `matching_terms` as built in `_generate_explanation`
(lines 284-289): term, rounded query weight, rounded tutor weight, and the
rounded product of the unrounded weights. -/
structure MTerm where
  term : PyStr
  query_weight : ℚ
  tutor_weight : ℚ
  contribution : ℚ
deriving DecidableEq

/-- The sort at line 292: `matching_terms.sort(key=contribution, reverse=True)`.
Python's list sort is stable; `List.insertionSort` with the
"contribution not smaller" relation is the same stable descending sort. -/
def sortMatching (mt : List MTerm) : List MTerm :=
  List.insertionSort (fun a b => b.contribution ≤ a.contribution) mt

/-- The `match_strength` classification (lines 302-312). -/
def matchStrength (match_percentage : ℚ) : String :=
  if 70 ≤ match_percentage then "Excellent"
  else if 50 ≤ match_percentage then "Strong"
  else if 30 ≤ match_percentage then "Good"
  else if 15 ≤ match_percentage then "Moderate"
  else "Partial"

/-- One entry of the list `_get_recommendation_factors` returns.  The source
builds dicts with a varying key set; absent keys are the defaults here. -/
structure Factor where
  factor : String
  description : PyStr
  keywords : List PyStr := []
  subjects : List PyStr := []
  value : Option ℚ := none
  impact : String
deriving DecidableEq

/-- Factor 1, Keyword Match (lines 406-414).  The `keyword_score` computed at
line 408 is never used in the emitted dict and is omitted. -/
def keywordFactor (matching_terms : List MTerm) : List Factor :=
  if matching_terms = [] then [] else
    [{ factor := "Keyword Relevance",
       description := "Matched ".toList ++ natChars matching_terms.length
         ++ " keyword(s) from your search".toList,
       keywords := (matching_terms.take 5).map (·.term),
       impact := if 3 ≤ matching_terms.length then "high"
         else if 1 ≤ matching_terms.length then "medium" else "low" }]

/-- Factor 2, Subject Expertise (lines 417-424): emitted iff `qualifications`
is a non-empty list (`if subjects and isinstance(subjects, list)`). -/
def subjectFactor (row : TutorRow) : List Factor :=
  match row.qualifications with
  | .list xs =>
    if xs = [] then [] else
      [{ factor := "Subject Expertise",
         description := "Teaches ".toList ++ natChars xs.length
           ++ " subject(s)".toList,
         subjects := xs.take 5,
         impact := if 3 ≤ xs.length then "high" else "medium" }]
  | _ => []

/-- Factor 3, Rating (lines 427-435): `if rating:` is Python truthiness, so a
null rating and a rating of exactly 0 both emit nothing. -/
def ratingFactor (row : TutorRow) : List Factor :=
  match row.average_rating with
  | some r =>
    if r = 0 then [] else
      [{ factor := "Student Rating",
         description := "Rated ".toList ++ fmt1 r ++ " out of 5 by students".toList,
         value := some r,
         impact := if 4.5 ≤ r then "high" else if 3.5 ≤ r then "medium" else "low" }]
  | none => []

/-- Factor 4, Experience (lines 438-446): `if experience:` is truthiness on
the NOT NULL integer column. -/
def experienceFactor (row : TutorRow) : List Factor :=
  if row.experience_years = 0 then [] else
    [{ factor := "Teaching Experience",
       description := intChars row.experience_years
         ++ " years of tutoring experience".toList,
       value := some (row.experience_years : ℚ),
       impact := if 10 ≤ row.experience_years then "high"
         else if 5 ≤ row.experience_years then "medium" else "low" }]

/-- Factor 5, Price Value (lines 449-466): `if hourly_rate:` is truthiness,
so a null rate and a rate of exactly 0 both emit nothing. -/
def priceFactor (row : TutorRow) : List Factor :=
  match row.hourly_rate with
  | some rate =>
    if rate = 0 then [] else
      [{ factor := "Price",
         description := '$' :: fmt0 rate ++ "/hour - ".toList ++
           (if rate ≤ 30 then "Budget-friendly option".toList
            else if rate ≤ 60 then "Moderately priced".toList
            else "Premium tutor".toList),
         value := some rate,
         impact := if rate ≤ 30 then "high"
           else if rate ≤ 60 then "medium" else "low" }]
  | none => []

/-- `_get_recommendation_factors` (lines 387-468): the five conditional
factor blocks appended in source order. -/
def getRecommendationFactors (row : TutorRow) (matching_terms : List MTerm) :
    List Factor :=
  keywordFactor matching_terms ++ subjectFactor row ++ ratingFactor row
    ++ experienceFactor row ++ priceFactor row

/-- `_generate_natural_explanation` (lines 322-385). -/
def generateNaturalExplanation (row : TutorRow) (matching_terms : List MTerm) :
    PyStr :=
  let tutor_name := row.full_name
  let top_keywords := (matching_terms.take 3).map (fun t => pyTitle t.term)
  let mainPart : PyStr :=
    match top_keywords with
    | [] => tutor_name ++ " has relevant teaching experience".toList
    | [k] => tutor_name ++ " specializes in ".toList ++ k
        ++ ", which matches your search".toList
    | [k1, k2] => tutor_name ++ " has expertise in ".toList ++ k1
        ++ " and ".toList ++ k2 ++ ", matching your requirements".toList
    | ks => tutor_name ++ " covers ".toList
        ++ pyJoin ", ".toList ks.dropLast ++ ", and ".toList
        ++ (ks.getLast?.getD []) ++ ", which align with your search".toList
  let ratingParts : List PyStr :=
    match row.average_rating with
    | some r =>
      if r ≠ 0 ∧ 4 ≤ r then
        ["with an excellent rating of ".toList ++ fmt1 r ++ "/5".toList]
      else if r ≠ 0 ∧ 3.5 ≤ r then
        ["with a good rating of ".toList ++ fmt1 r ++ "/5".toList]
      else []
    | none => []
  let expParts : List PyStr :=
    if 10 ≤ row.experience_years then
      [intChars row.experience_years ++ " years of teaching experience".toList]
    else if 5 ≤ row.experience_years then
      [intChars row.experience_years ++ " years of experience".toList]
    else []
  let expParts := expParts.map (fun p => "and ".toList ++ p)
  pyJoin ". ".toList (mainPart :: (ratingParts ++ expParts)) ++ ['.']

/-- The explanation dict returned by `_generate_explanation` (lines 314-320). -/
structure Explanation where
  summary : PyStr
  match_strength : String
  matching_keywords : List PyStr
  detailed_matches : List MTerm
  factors : List Factor
deriving DecidableEq

/-- `_generate_explanation` (lines 227-320), downstream of the term-overlap
enumeration: takes the raw `matching_terms` list (lines 261-289, supplied by
the fitted state), sorts it by contribution descending, and assembles the
explanation.  `match_percentage` is the value the pipeline stored in the
tutor's row (line 302 reads it back from the row). -/
def generateExplanation (matching_raw : List MTerm) (row : TutorRow)
    (match_percentage : ℚ) : Explanation :=
  let matching_terms := sortMatching matching_raw
  { summary := generateNaturalExplanation row matching_terms,
    match_strength := matchStrength match_percentage,
    matching_keywords := (matching_terms.take 5).map (·.term),
    detailed_matches := matching_terms.take 10,
    factors := getRecommendationFactors row matching_terms }

/-! ### The ranking pipeline, `TutorRecommender.get_recommendations`
(lines 470-577) -/

/-- A tutor row with the `similarity_score` and `match_percentage` columns
attached (lines 527-530), keeping its DataFrame index `idx` (the label
`iterrows` yields at line 547). -/
structure ScoredRow where
  idx : ℕ
  row : TutorRow
  similarity_score : ℚ
  match_percentage : ℚ
deriving DecidableEq

/-- Rating comparison as `sort_values(..., ascending=False)` with the default
`na_position='last'` orders the secondary key: a null rating sorts after every
present rating, two nulls tie. -/
def ratingGE : Option ℚ → Option ℚ → Prop
  | some x, some y => y ≤ x
  | some _, none => True
  | none, some _ => False
  | none, none => True

instance : ∀ a b : Option ℚ, Decidable (ratingGE a b)
  | some x, some y => inferInstanceAs (Decidable (y ≤ x))
  | some _, none => .isTrue trivial
  | none, some _ => .isFalse (fun h => h)
  | none, none => .isTrue trivial

/-- The sort key of `sort_values(by=['similarity_score', 'average_rating'],
ascending=[False, False])` (lines 534-537): `a` may precede `b` iff `a`'s
score is larger, or the scores are equal and `a`'s rating is not below `b`'s
(nulls last). -/
def rankLE (a b : ScoredRow) : Prop :=
  b.similarity_score < a.similarity_score ∨
    (a.similarity_score = b.similarity_score ∧
      ratingGE a.row.average_rating b.row.average_rating)

instance : DecidableRel rankLE := fun a b => by
  unfold rankLE; infer_instance

theorem ratingGE_total : ∀ a b : Option ℚ, ratingGE a b ∨ ratingGE b a
  | some x, some y => by rcases le_total y x with h | h
                         · exact Or.inl h
                         · exact Or.inr h
  | some _, none => Or.inl trivial
  | none, some _ => Or.inr trivial
  | none, none => Or.inl trivial

theorem ratingGE_trans :
    ∀ {a b c : Option ℚ}, ratingGE a b → ratingGE b c → ratingGE a c
  | some _, some _, some _, h₁, h₂ => le_trans h₂ h₁
  | some _, some _, none, _, _ => trivial
  | some _, none, some _, _, h₂ => h₂.elim
  | some _, none, none, _, _ => trivial
  | none, some _, _, h₁, _ => h₁.elim
  | none, none, some _, _, h₂ => h₂.elim
  | none, none, none, _, _ => trivial

instance : IsTotal ScoredRow rankLE :=
  ⟨fun a b => by
    rcases lt_trichotomy a.similarity_score b.similarity_score with h | h | h
    · exact Or.inr (Or.inl h)
    · rcases ratingGE_total a.row.average_rating b.row.average_rating with hr | hr
      · exact Or.inl (Or.inr ⟨h, hr⟩)
      · exact Or.inr (Or.inr ⟨h.symm, hr⟩)
    · exact Or.inl (Or.inl h)⟩

instance : IsTrans ScoredRow rankLE :=
  ⟨fun a b c hab hbc => by
    rcases hab with h₁ | ⟨e₁, r₁⟩
    · rcases hbc with h₂ | ⟨e₂, _⟩
      · exact Or.inl (lt_trans h₂ h₁)
      · exact Or.inl (e₂ ▸ h₁)
    · rcases hbc with h₂ | ⟨e₂, r₂⟩
      · exact Or.inl (e₁ ▸ h₂)
      · exact Or.inr ⟨e₁.trans e₂, ratingGE_trans r₁ r₂⟩⟩

/-- The fitted recommender state: the tutor rows held in `tutors_df`, the
fitted vectorizer & corpus matrix abstracted as the deterministic functions
`simOf` (cleaned query ↦ cosine score per tutor, lines 517-524) and
`matchingOf` (cleaned query, DataFrame index ↦ raw matching-term list, lines
257-289), plus the score columns written into `tutors_df` at lines 527-530
(`none` before the first call). -/
structure RecState where
  tutors : List TutorRow
  simOf : PyStr → List ℚ
  matchingOf : PyStr → ℕ → List MTerm
  scoreCols : Option (List ℚ)

/-- Lines 512-513: `query.lower().strip()`. -/
def cleanQuery (q : PyStr) : PyStr := pyStrip (pyLower q)

/-- Lines 527-530: attach each cosine score and its percentage to its row. -/
def attachScores (tutors : List TutorRow) (scores : List ℚ) : List ScoredRow :=
  (tutors.zip scores).enum.map (fun p => ⟨p.1, p.2.1, p.2.2, p.2.2 * 100⟩)

/-- Lines 534-537: the sort.  `sort_values` uses an unstable quicksort; any
permutation ordered by `rankLE` satisfies every ordering property claimed of
the output, and a deterministic sort models the deterministic library sort. -/
def rankedRows (st : RecState) (q : PyStr) : List ScoredRow :=
  List.insertionSort rankLE (attachScores st.tutors (st.simOf (cleanQuery q)))

/-- Line 540: keep strictly positive similarity only. -/
def keptRows (st : RecState) (q : PyStr) : List ScoredRow :=
  (rankedRows st q).filter (fun r => decide (0 < r.similarity_score))

/-- Line 543: `head(top_n)`. -/
def topRows (st : RecState) (q : PyStr) (top_n : ℕ) : List ScoredRow :=
  (keptRows st q).take top_n

/-- One element of the returned list (the dict built at lines 556-572). -/
structure RecResult where
  id : PyStr
  full_name : PyStr
  first_name : PyStr
  last_name : PyStr
  subjects : List PyStr
  bio : PyStr
  teaching_style : PyStr
  hourly_rate : ℚ
  average_rating : Option ℚ
  experience_years : ℤ
  is_online : Bool
  similarity_score : ℚ
  match_percentage : ℚ
  explanation : Explanation
deriving DecidableEq

/-- Lines 547-573: build the response dict for one kept row. -/
def toResult (st : RecState) (q : PyStr) (sr : ScoredRow) : RecResult :=
  let row := sr.row
  { id := row.id,
    full_name := row.full_name,
    first_name := row.first_name,
    last_name := row.last_name,
    subjects := match row.qualifications with | .list xs => xs | _ => [],
    bio := row.bio_text.getD [],
    teaching_style := row.teaching_style.getD [],
    hourly_rate := row.hourly_rate.getD 0,
    average_rating := row.average_rating,
    experience_years := row.experience_years,
    is_online := row.is_online,
    similarity_score := round4 sr.similarity_score,
    match_percentage := round1 sr.match_percentage,
    explanation :=
      generateExplanation (st.matchingOf (cleanQuery q) sr.idx) row
        sr.match_percentage }

/-- `TutorRecommender.get_recommendations` (lines 470-577) on a fitted
recommender, with the mutation of `self.tutors_df` (the score columns written
at lines 527-530) made explicit in the returned state.  An empty or
whitespace-only query returns `[]` before anything is computed or written
(lines 505-507). -/
def getRecommendationsM (st : RecState) (query : PyStr) (top_n : ℕ) :
    List RecResult × RecState :=
  if query = [] ∨ pyStrip query = [] then ([], st)
  else
    ((topRows st query top_n).map (toResult st query),
      { st with scoreCols := some (st.simOf (cleanQuery query)) })

/-! ### The module-level entry point `get_recommendations` (lines 584-636) -/

/-- The `try` body of the module-level `get_recommendations`: the storage
collaborator (`fetch_tutors_from_database`, with the `max_price` filter
applied upstream) is modelled by its outcome, either the fetched rows or a
raised error.  An empty fetch returns `[]` before fitting (lines 617-620);
otherwise the recommender is fitted on the rows and queried. -/
def moduleBody (fetched : Except PyStr (List TutorRow))
    (simOf : PyStr → List ℚ) (matchingOf : PyStr → ℕ → List MTerm)
    (query : PyStr) (top_n : ℕ) : Except PyStr (List RecResult) :=
  match fetched with
  | .error e => .error e
  | .ok rows =>
    if rows = [] then .ok []
    else .ok (getRecommendationsM ⟨rows, simOf, matchingOf, none⟩ query top_n).1

/-- The module-level `get_recommendations` (lines 584-636): the
`except Exception` handler at lines 633-636 maps every error escaping the
body to the empty list. -/
def moduleGetRecommendations (fetched : Except PyStr (List TutorRow))
    (simOf : PyStr → List ℚ) (matchingOf : PyStr → ℕ → List MTerm)
    (query : PyStr) (top_n : ℕ) : List RecResult :=
  match moduleBody fetched simOf matchingOf query top_n with
  | .ok r => r
  | .error _ => []

/-! ### Concrete sample inputs used by witnesses and counterexamples -/

/-- A well-formed tutor row. -/
def rowCalc : TutorRow :=
  { id := "t1".toList, first_name := "Ada".toList, last_name := "Li".toList,
    full_name := "Ada Li".toList, bio_text := some "teaches calculus".toList,
    qualifications := .list ["calculus".toList, "algebra".toList],
    teaching_style := some "visual".toList, hourly_rate := some 40,
    average_rating := some 3, experience_years := 6, is_online := true }

/-- Like `rowCalc` but rated 5. -/
def rowHist : TutorRow :=
  { rowCalc with
    id := "t2".toList, full_name := "Bo Xu".toList,
    average_rating := some 5 }

/-- A tutor row with every optional text field empty or absent. -/
def rowBlank : TutorRow :=
  { id := "t0".toList, first_name := [], last_name := [], full_name := [],
    bio_text := none, qualifications := .null, teaching_style := none,
    hourly_rate := none, average_rating := none, experience_years := 0,
    is_online := false }

/-- A tutor row whose biography contains an internal double space. -/
def rowWideBio : TutorRow :=
  { rowBlank with bio_text := some "piano  lessons".toList }

/-- A tutor row whose hourly rate is present and exactly 0. -/
def rowFreeTutor : TutorRow := { rowCalc with hourly_rate := some 0 }

/-- Fitted state for the C1 counterexample: two tutors whose cosine scores
0.50004 and 0.50001 are distinct but round to the same 4-decimal value, the
better-scored one carrying the lower rating. -/
def stRound : RecState :=
  ⟨[rowCalc, rowHist], fun _ => [0.50004, 0.50001], fun _ _ => [], none⟩

/-- Fitted state for the C2 counterexample: one tutor whose cosine score
0.00004 is strictly positive but rounds to 0.0. -/
def stTiny : RecState := ⟨[rowCalc], fun _ => [0.00004], fun _ _ => [], none⟩

/-- Fitted state with one well-matched tutor. -/
def stPlain : RecState := ⟨[rowCalc], fun _ => [0.7], fun _ _ => [], none⟩

/-- A sample raw matching term. -/
def mtCalc : MTerm :=
  { term := "calculus".toList, query_weight := 0.8, tutor_weight := 0.5,
    contribution := 0.4 }

/-- The keyword factor emitted for the single matching term `mtCalc`. -/
def kwFactorOne : Factor :=
  { factor := "Keyword Relevance",
    description := "Matched 1 keyword(s) from your search".toList,
    keywords := ["calculus".toList],
    impact := "medium" }

/-! ### The claimed properties, as stated -/

/-- The ordering claimed of the returned list, stated on the returned result
fields: strictly descending similarity, ties broken by non-increasing rating
with an absent rating below any present one. -/
def orderingClaim (rs : List RecResult) : Prop :=
  rs.Pairwise (fun A B => B.similarity_score < A.similarity_score ∨
    (A.similarity_score = B.similarity_score ∧
      ratingGE A.average_rating B.average_rating))

/-- The positivity claimed of the returned list: no result carries
`similarity_score ≤ 0`. -/
def positivityClaim (rs : List RecResult) : Prop :=
  rs.Forall fun R => ¬ R.similarity_score ≤ 0

/-- Whether a string contains two or more consecutive whitespace characters. -/
def hasWsRun : PyStr → Bool
  | a :: b :: t => (isPySpace a && isPySpace b) || hasWsRun (b :: t)
  | _ => false

/-- The normalization claimed of a text soup: no upper-case letters and no
run of two or more consecutive whitespace characters. -/
def lowerCollapsedClaim (s : PyStr) : Prop :=
  (∀ c ∈ s, isAsciiUpper c = false) ∧ hasWsRun s = false

/-- The price-factor presence claimed for one candidate: a price factor is
emitted iff the hourly rate is present. -/
def priceClaim (row : TutorRow) (mt : List MTerm) : Prop :=
  (∃ f ∈ getRecommendationFactors row mt, f.factor = "Price") ↔
    row.hourly_rate.isSome = true

/-! ### Helper lemmas: characters and stripping -/

theorem toNat_ofNat_lt {n : ℕ} (h : n < 0xd800) : (Char.ofNat n).toNat = n := by
  have hv : n.isValidChar := Or.inl h
  simp [Char.ofNat, Char.toNat, hv, Char.ofNatAux, UInt32.toNat, BitVec.toNat_ofNatLt]

theorem isAsciiUpper_pyLowerChar (c : Char) :
    isAsciiUpper (pyLowerChar c) = false := by
  unfold pyLowerChar
  by_cases h : isAsciiUpper c = true
  · rw [if_pos h]
    unfold isAsciiUpper at h ⊢
    rw [Bool.and_eq_true, decide_eq_true_iff, decide_eq_true_iff] at h
    rw [toNat_ofNat_lt (by omega)]
    simp only [Bool.and_eq_false_iff, decide_eq_false_iff_not]
    right; omega
  · rw [if_neg h]
    exact Bool.eq_false_iff.mpr h

theorem no_upper_pyLower (s : PyStr) :
    ∀ c ∈ pyLower s, isAsciiUpper c = false := by
  intro c hc
  rcases List.mem_map.mp hc with ⟨d, _, rfl⟩
  exact isAsciiUpper_pyLowerChar d

theorem mem_pyStrip {c : Char} {s : PyStr} (h : c ∈ pyStrip s) : c ∈ s := by
  unfold pyStrip trimR trimL at h
  have h1 := List.mem_reverse.mp h
  have h2 := List.Sublist.mem h1 (List.dropWhile_sublist _)
  have h3 := List.mem_reverse.mp h2
  exact List.Sublist.mem h3 (List.dropWhile_sublist _)

theorem head_dropWhile (p : Char → Bool) (l : PyStr) :
    ∀ c ∈ (List.dropWhile p l).head?, p c = false := by
  induction l with
  | nil => simp
  | cons d l ih =>
    intro c hc
    rw [List.dropWhile_cons] at hc
    by_cases h : p d = true
    · exact ih c (by simpa [h] using hc)
    · rw [if_neg h] at hc
      have hdc : d = c := by simpa using hc
      subst hdc
      exact Bool.eq_false_iff.mpr h

theorem suffix_getLast? {α : Type} {l₁ l₂ : List α} (h : l₁ <:+ l₂)
    (hne : l₁ ≠ []) : l₁.getLast? = l₂.getLast? := by
  obtain ⟨t, rfl⟩ := h
  rw [List.getLast?_append]
  cases h1 : l₁.getLast? with
  | none => exact absurd (by simpa using h1) hne
  | some a => simp [Option.or]

theorem getLast?_pyStrip (s : PyStr) :
    ∀ c ∈ (pyStrip s).getLast?, isPySpace c = false := by
  show ∀ c ∈ (trimR (trimL s)).getLast?, isPySpace c = false
  unfold trimR
  rw [List.getLast?_reverse]
  exact head_dropWhile _ _

theorem head?_pyStrip (s : PyStr) :
    ∀ c ∈ (pyStrip s).head?, isPySpace c = false := by
  intro c hc
  show isPySpace c = false
  unfold pyStrip trimR at hc
  rw [List.head?_reverse] at hc
  by_cases hne : List.dropWhile isPySpace (trimL s).reverse = []
  · rw [hne] at hc; simp at hc
  · rw [suffix_getLast? (List.dropWhile_suffix _) hne, List.getLast?_reverse] at hc
    exact head_dropWhile _ s c hc

/-! ### Helper lemmas: rounding -/

theorem rhe_eq_floor_or (q : ℚ) : rhe q = ⌊q⌋ ∨ rhe q = ⌊q⌋ + 1 := by
  unfold rhe
  dsimp only
  split_ifs <;> simp

theorem rhe_mono {q r : ℚ} (h : q ≤ r) : rhe q ≤ rhe r := by
  have hf : ⌊q⌋ ≤ ⌊r⌋ := Int.floor_mono h
  by_cases heq : ⌊q⌋ = ⌊r⌋
  · unfold rhe
    dsimp only
    rw [← heq]
    have hcast : (⌊q⌋ : ℚ) = (⌊r⌋ : ℚ) := by exact_mod_cast heq
    have h1 : q - ⌊q⌋ ≤ r - ⌊q⌋ := by linarith
    split_ifs <;> first | omega | (exfalso; linarith)
  · have hlt : ⌊q⌋ < ⌊r⌋ := lt_of_le_of_ne hf heq
    have h1 : rhe q ≤ ⌊q⌋ + 1 := by rcases rhe_eq_floor_or q with h' | h' <;> omega
    have h2 : ⌊r⌋ ≤ rhe r := by rcases rhe_eq_floor_or r with h' | h' <;> omega
    omega

theorem round4_mono {a b : ℚ} (h : a ≤ b) : round4 a ≤ round4 b := by
  unfold round4
  have h1 : rhe (a * 10000) ≤ rhe (b * 10000) := rhe_mono (by linarith)
  have h2 : ((rhe (a * 10000) : ℤ) : ℚ) ≤ ((rhe (b * 10000) : ℤ) : ℚ) := by
    exact_mod_cast h1
  linarith

theorem round4_zero : round4 0 = 0 := by
  have h0 : rhe 0 = 0 := by
    unfold rhe
    norm_num
  unfold round4
  rw [show ((0 : ℚ) * 10000) = 0 by norm_num, h0]
  norm_num

theorem round4_nonneg {a : ℚ} (h : 0 ≤ a) : 0 ≤ round4 a := by
  have := round4_mono h
  rwa [round4_zero] at this

/-! ### Helper lemmas: the ranking pipeline -/

theorem topRows_pairwise (st : RecState) (q : PyStr) (n : ℕ) :
    (topRows st q n).Pairwise rankLE :=
  List.Pairwise.sublist (List.take_sublist _ _)
    ((List.sorted_insertionSort rankLE _).filter _)

theorem topRows_pos (st : RecState) (q : PyStr) (n : ℕ) :
    ∀ r ∈ topRows st q n, 0 < r.similarity_score := by
  intro r hr
  have h1 : r ∈ keptRows st q :=
    List.Sublist.mem hr (List.take_sublist _ _)
  have h2 := (List.mem_filter.mp h1).2
  simpa using h2

theorem rankLE_score_le {a b : ScoredRow} (h : rankLE a b) :
    b.similarity_score ≤ a.similarity_score := by
  rcases h with h | ⟨h, _⟩
  · exact le_of_lt h
  · exact le_of_eq h.symm

/-! ### Claim C1: ranking invariant -/

unseal Rat.mul Rat.inv Rat.ofScientific Rat.add Rat.sub in
/-- C1, counterexample to the claim as stated: with cosine scores 0.50004 and
0.50001 the first result precedes the second, both report
`similarity_score = 0.5` after the 4-decimal rounding of line 568, and the
first result's rating (3) is strictly below the second's (5), violating the
claimed tie-break on the returned fields. -/
theorem C1_counterexample :
    ¬ orderingClaim (getRecommendationsM stRound ("calculus".toList) 10).1 := by
  unfold orderingClaim
  decide

/-- C1, amended: the returned list is ordered by the exact (pre-rounding)
similarity — each earlier row has strictly greater exact similarity than each
later row, or equal exact similarity and a rating not below the later row's,
an absent rating sorting below any present one; consequently the reported
4-decimal `similarity_score` fields are non-increasing (distinct exact scores
can round to equal reported scores, so the rating tie-break holds for the
exact scores, not the reported ones). -/
theorem C1_ranking_invariant (st : RecState) (q : PyStr) (n : ℕ) :
    (topRows st q n).Pairwise rankLE ∧
    ((getRecommendationsM st q n).1).Pairwise
      (fun A B => B.similarity_score ≤ A.similarity_score) := by
  refine ⟨topRows_pairwise st q n, ?_⟩
  unfold getRecommendationsM
  split
  · simp
  · dsimp only
    rw [List.pairwise_map]
    exact (topRows_pairwise st q n).imp
      (fun hab => round4_mono (rankLE_score_le hab))

/-! ### Claim C2: positivity filter -/

unseal Rat.mul Rat.inv Rat.ofScientific Rat.add Rat.sub in
/-- C2, counterexample to the claim as stated: a tutor with exact cosine
similarity 0.00004 passes the strictly-positive filter of line 540, but the
4-decimal rounding of line 568 reports its `similarity_score` as 0.0, so the
returned list does contain a result with `similarity_score ≤ 0`. -/
theorem C2_counterexample :
    ¬ positivityClaim (getRecommendationsM stTiny ("calculus".toList) 10).1 := by
  unfold positivityClaim
  decide

/-- C2, amended: every returned result arises from a row whose exact cosine
similarity is strictly positive — a tutor whose vector has zero (or negative)
dot product with the query is never returned, even when fewer than `top_n`
tutors are returned; the reported `similarity_score`, rounded to 4 decimals,
is therefore non-negative but can be 0.0 when the exact similarity is below
0.00005. -/
theorem C2_positive_similarity (st : RecState) (q : PyStr) (n : ℕ) :
    ((topRows st q n).Forall fun r => 0 < r.similarity_score) ∧
    ((getRecommendationsM st q n).1.Forall fun R => 0 ≤ R.similarity_score) := by
  constructor
  · exact List.forall_iff_forall_mem.mpr (topRows_pos st q n)
  · rw [List.forall_iff_forall_mem]
    intro R hR
    unfold getRecommendationsM at hR
    split at hR
    · simp at hR
    · dsimp only at hR
      rcases List.mem_map.mp hR with ⟨r, hr, rfl⟩
      exact round4_nonneg (le_of_lt (topRows_pos st q n r hr))

/-! ### Claim C3: determinism -/

/-- C3: the recommendation pipeline is a pure function of the fitted state and
the query.  The only mutation `get_recommendations` performs — overwriting the
`similarity_score` / `match_percentage` columns of `self.tutors_df` at lines
527-530 — does not influence a subsequent call: invoking the method again on
the state left by a first call, with the same query and `top_n`, returns the
identical ordered result list, explanations (summaries, `detailed_matches`)
included, and leaves the state fixed. -/
theorem C3_deterministic (st : RecState) (q : PyStr) (n : ℕ) :
    (getRecommendationsM (getRecommendationsM st q n).2 q n).1 =
      (getRecommendationsM st q n).1 ∧
    (getRecommendationsM (getRecommendationsM st q n).2 q n).2 =
      (getRecommendationsM st q n).2 := by
  by_cases hc : q = [] ∨ pyStrip q = []
  · simp [getRecommendationsM, hc]
  · constructor
    · simp only [getRecommendationsM, if_neg hc]
      rfl
    · simp only [getRecommendationsM, if_neg hc]

/-! ### Claim C4: empty query and empty corpus -/

/-- C4: an empty or whitespace-only query makes the method return the empty
list before any scoring (lines 505-507), and the module-level entry point
returns the empty list when the fetched corpus is empty (lines 617-620);
neither raises. -/
theorem C4_empty_inputs (st : RecState) (q : PyStr) (n : ℕ)
    (simOf : PyStr → List ℚ) (matchingOf : PyStr → ℕ → List MTerm)
    (q' : PyStr) (n' : ℕ) :
    (pyStrip q = [] → (getRecommendationsM st q n).1 = []) ∧
    moduleGetRecommendations (Except.ok []) simOf matchingOf q' n' = [] := by
  constructor
  · intro h
    unfold getRecommendationsM
    rw [if_pos (Or.inr h)]
  · rfl

/-- Witness for C4 at a concrete whitespace-only query. -/
theorem C4_empty_inputs_witness :
    pyStrip (" \t ".toList) = [] ∧
      (getRecommendationsM stPlain (" \t ".toList) 10).1 = [] :=
  ⟨by decide,
    (C4_empty_inputs stPlain (" \t ".toList) 10 (fun _ => [])
      (fun _ _ => []) [] 0).1 (by decide)⟩

/-! ### Claim C5: match-strength thresholds -/

/-- C5: the `match_strength` of every explanation is classified from the
candidate's `match_percentage` by exactly the fixed thresholds 70 / 50 / 30 /
15 (lines 302-312). -/
theorem C5_match_strength (mt : List MTerm) (row : TutorRow) (mp : ℚ) :
    (70 ≤ mp → (generateExplanation mt row mp).match_strength = "Excellent") ∧
    (50 ≤ mp ∧ mp < 70 → (generateExplanation mt row mp).match_strength = "Strong") ∧
    (30 ≤ mp ∧ mp < 50 → (generateExplanation mt row mp).match_strength = "Good") ∧
    (15 ≤ mp ∧ mp < 30 → (generateExplanation mt row mp).match_strength = "Moderate") ∧
    (mp < 15 → (generateExplanation mt row mp).match_strength = "Partial") := by
  have hms : (generateExplanation mt row mp).match_strength = matchStrength mp := rfl
  rw [hms]
  unfold matchStrength
  refine ⟨fun h => ?_, fun h => ?_, fun h => ?_, fun h => ?_, fun h => ?_⟩ <;>
    split_ifs <;> first | rfl | (exfalso; rcases h with ⟨h₁, h₂⟩ <;> linarith) |
      (exfalso; linarith)

/-- Witness for C5 at concrete percentages, one per band. -/
theorem C5_match_strength_witness :
    (generateExplanation [] rowBlank 75).match_strength = "Excellent" ∧
    (generateExplanation [] rowBlank 55).match_strength = "Strong" ∧
    (generateExplanation [] rowBlank 35).match_strength = "Good" ∧
    (generateExplanation [] rowBlank 20).match_strength = "Moderate" ∧
    (generateExplanation [] rowBlank 10).match_strength = "Partial" :=
  ⟨(C5_match_strength [] rowBlank 75).1 (by norm_num),
    (C5_match_strength [] rowBlank 55).2.1 (by norm_num),
    (C5_match_strength [] rowBlank 35).2.2.1 (by norm_num),
    (C5_match_strength [] rowBlank 20).2.2.2.1 (by norm_num),
    (C5_match_strength [] rowBlank 10).2.2.2.2 (by norm_num)⟩

/-! ### Claim C6: text soup is total and non-empty -/

/-- C6: `create_text_soup` (a total function: it raises nothing) always
returns a non-empty string, and returns exactly the fallback
`"tutor educator teacher"` when the combined text is empty after lowering and
trimming. -/
theorem C6_soup_nonempty (row : TutorRow) :
    create_text_soup row ≠ [] ∧
    (pyStrip (pyLower (pyJoin [' '] (textParts row))) = [] →
      create_text_soup row = fallbackSoup) := by
  constructor
  · simp only [create_text_soup]
    split
    · decide
    · assumption
  · intro h
    unfold create_text_soup
    rw [if_pos h]

/-- Witness for C6: a tutor with no qualifications, biography or teaching
style gets the fallback document. -/
theorem C6_soup_nonempty_witness :
    pyStrip (pyLower (pyJoin [' '] (textParts rowBlank))) = [] ∧
      create_text_soup rowBlank = fallbackSoup :=
  ⟨by decide, (C6_soup_nonempty rowBlank).2 (by decide)⟩

/-! ### Claim C7: soup casing and whitespace -/

/-- C7, counterexample to the claim as stated: a biography containing an
internal double space flows through `create_text_soup` unchanged —
`.lower().strip()` (line 196) trims only the ends and never collapses
internal whitespace runs. -/
theorem C7_counterexample :
    ¬ lowerCollapsedClaim (create_text_soup rowWideBio) := by
  unfold lowerCollapsedClaim
  decide

/-- C7, amended: the string returned by `create_text_soup` contains no
upper-case ASCII letter, and carries no leading and no trailing whitespace;
internal whitespace is preserved as-is, not collapsed. -/
theorem C7_soup_lower_trimmed (row : TutorRow) :
    (∀ c ∈ create_text_soup row, isAsciiUpper c = false) ∧
    (∀ c ∈ (create_text_soup row).head?, isPySpace c = false) ∧
    (∀ c ∈ (create_text_soup row).getLast?, isPySpace c = false) := by
  simp only [create_text_soup]
  split
  · refine ⟨?_, ?_, ?_⟩ <;> decide
  · refine ⟨?_, head?_pyStrip _, getLast?_pyStrip _⟩
    intro c hc
    exact no_upper_pyLower _ c (mem_pyStrip hc)

/-- Witness for C7 (amended) at a concrete row: the soup of `rowWideBio` is
`"piano  lessons"`, whose first character is not upper-case. -/
theorem C7_soup_lower_trimmed_witness : isAsciiUpper 'p' = false :=
  (C7_soup_lower_trimmed rowWideBio).1 'p' (by decide)

/-! ### Helper lemmas: the factor blocks -/

theorem mem_keywordFactor {mt : List MTerm} {f : Factor}
    (h : f ∈ keywordFactor mt) :
    f.factor = "Keyword Relevance" ∧
      (f.impact = "high" ∨ f.impact = "medium") := by
  unfold keywordFactor at h
  split_ifs at h with hmt h3 h1
  · simp at h
  · rw [List.mem_singleton] at h; subst h; exact ⟨rfl, Or.inl rfl⟩
  · rw [List.mem_singleton] at h; subst h; exact ⟨rfl, Or.inr rfl⟩
  · exact absurd (List.length_eq_zero.mp (by omega)) hmt

theorem mem_subjectFactor {row : TutorRow} {f : Factor}
    (h : f ∈ subjectFactor row) : f.factor = "Subject Expertise" := by
  unfold subjectFactor at h
  cases hq : row.qualifications with
  | list xs =>
    rw [hq] at h
    dsimp only at h
    split_ifs at h with h1 h3
    · simp at h
    · rw [List.mem_singleton] at h; subst h; rfl
    · rw [List.mem_singleton] at h; subst h; rfl
  | str s => rw [hq] at h; simp at h
  | null => rw [hq] at h; simp at h

theorem mem_ratingFactor {row : TutorRow} {f : Factor}
    (h : f ∈ ratingFactor row) : f.factor = "Student Rating" := by
  unfold ratingFactor at h
  cases hq : row.average_rating with
  | some r =>
    rw [hq] at h
    dsimp only at h
    split_ifs at h with h1 h45 h35
    · simp at h
    all_goals rw [List.mem_singleton] at h; subst h; rfl
  | none => rw [hq] at h; simp at h

theorem mem_experienceFactor {row : TutorRow} {f : Factor}
    (h : f ∈ experienceFactor row) : f.factor = "Teaching Experience" := by
  unfold experienceFactor at h
  split_ifs at h with h1 h10 h5
  · simp at h
  all_goals rw [List.mem_singleton] at h; subst h; rfl

theorem mem_priceFactor {row : TutorRow} {f : Factor}
    (h : f ∈ priceFactor row) : f.factor = "Price" := by
  unfold priceFactor at h
  cases hq : row.hourly_rate with
  | some r =>
    rw [hq] at h
    dsimp only at h
    split_ifs at h with h1 h30 h60
    · simp at h
    all_goals rw [List.mem_singleton] at h; subst h; rfl
  | none => rw [hq] at h; simp at h

/-! ### Claim C8: the price factor -/

/-- C8, counterexample to the claim as stated: `rowFreeTutor` has a present
hourly rate of exactly 0, yet the Python truthiness check
`if hourly_rate:` at line 450 suppresses the price factor, so "present" and
"factor emitted" are not equivalent. -/
theorem C8_counterexample : ¬ priceClaim rowFreeTutor [] := by
  unfold priceClaim
  decide

/-- C8, amended: a price-tier factor is emitted iff the candidate's
`hourly_rate` is present and non-zero, and its impact is then `high`
("Budget-friendly") when the rate is ≤ 30, `medium` ("Moderately priced")
when ≤ 60, and `low` ("Premium") otherwise. -/
theorem C8_price_factor (row : TutorRow) (mt : List MTerm) :
    ((getRecommendationFactors row mt).filter
        (fun f => f.factor == "Price")).map Factor.impact =
      match row.hourly_rate with
      | none => []
      | some r =>
        if r = 0 then []
        else [if r ≤ 30 then "high" else if r ≤ 60 then "medium" else "low"] := by
  have hkw : (keywordFactor mt).filter (fun f => f.factor == "Price") = [] :=
    List.filter_eq_nil_iff.mpr fun a ha => by
      rw [(mem_keywordFactor ha).1]; decide
  have hsu : (subjectFactor row).filter (fun f => f.factor == "Price") = [] :=
    List.filter_eq_nil_iff.mpr fun a ha => by
      rw [mem_subjectFactor ha]; decide
  have hra : (ratingFactor row).filter (fun f => f.factor == "Price") = [] :=
    List.filter_eq_nil_iff.mpr fun a ha => by
      rw [mem_ratingFactor ha]; decide
  have hex : (experienceFactor row).filter (fun f => f.factor == "Price") = [] :=
    List.filter_eq_nil_iff.mpr fun a ha => by
      rw [mem_experienceFactor ha]; decide
  unfold getRecommendationFactors
  rw [List.filter_append, List.filter_append, List.filter_append,
    List.filter_append, hkw, hsu, hra, hex]
  simp only [List.nil_append]
  unfold priceFactor
  cases row.hourly_rate with
  | none => rfl
  | some r =>
    dsimp only
    split_ifs <;> rfl

/-! ### Claim C9: the module entry point never raises -/

/-- C9: the module-level `get_recommendations` returns a plain list for every
behaviour of the storage collaborator: when the fetch raises (or the body
errors), the `except` handler at lines 633-636 yields the empty list, and
otherwise the result is the fitted recommender's answer (the empty list for an
empty corpus).  No error escapes to the caller. -/
theorem C9_no_exception (fetched : Except PyStr (List TutorRow))
    (simOf : PyStr → List ℚ) (matchingOf : PyStr → ℕ → List MTerm)
    (q : PyStr) (n : ℕ) :
    moduleGetRecommendations fetched simOf matchingOf q n = [] ∨
    ∃ rows, fetched = Except.ok rows ∧
      moduleGetRecommendations fetched simOf matchingOf q n =
        (getRecommendationsM ⟨rows, simOf, matchingOf, none⟩ q n).1 := by
  cases fetched with
  | error e => exact Or.inl rfl
  | ok rows =>
    by_cases h : rows = []
    · subst h; exact Or.inl rfl
    · refine Or.inr ⟨rows, rfl, ?_⟩
      unfold moduleGetRecommendations moduleBody
      dsimp only
      rw [if_neg h]

/-! ### Claim C10: keyword-relevance impact is never low -/

/-- C10: whenever a Keyword Relevance factor is emitted, its impact is `high`
or `medium` — the factor is only emitted when at least one matching term
exists (line 407), making the `low` branch of the impact classification at
line 413 unreachable. -/
theorem C10_keyword_impact (row : TutorRow) (mt : List MTerm) (f : Factor)
    (hf : f ∈ getRecommendationFactors row mt)
    (hn : f.factor = "Keyword Relevance") :
    f.impact = "high" ∨ f.impact = "medium" := by
  unfold getRecommendationFactors at hf
  rcases List.mem_append.mp hf with hf | h
  · rcases List.mem_append.mp hf with hf | h
    · rcases List.mem_append.mp hf with hf | h
      · rcases List.mem_append.mp hf with h | h
        · exact (mem_keywordFactor h).2
        · rw [mem_subjectFactor h] at hn; exact absurd hn (by decide)
      · rw [mem_ratingFactor h] at hn; exact absurd hn (by decide)
    · rw [mem_experienceFactor h] at hn; exact absurd hn (by decide)
  · rw [mem_priceFactor h] at hn; exact absurd hn (by decide)

/-- Witness for C10 at a concrete candidate with one matching term. -/
theorem C10_keyword_impact_witness :
    kwFactorOne.impact = "high" ∨ kwFactorOne.impact = "medium" :=
  C10_keyword_impact rowBlank [mtCalc] kwFactorOne (by decide) (by decide)

end FMT
